import Mathlib

/-!
Shallow embedding of the client-side search/QA state coordinators of the
Newsight frontend (`src/frontend/src/store/index.ts`), together with the data
model from `src/frontend/src/types/index.ts`, and proofs about their state
transitions.

Asynchronous actions (`keywordSearch`, `semanticSearch`, `askQuestion`) are
modelled as pure functions from the pre-call state and the settled outcome of
the external API call to the final state; the outcome is
`Except (Option String) response`, where a failure value `some m` stands for a
normalized API error carrying message `m` (the `isApiError(error)` branch) and
`none` for any other thrown value (the fallback branch).  The issue-time
`set` and the settlement `set` are split into separate functions so that
interleavings of in-flight calls can be modelled as a step relation.
-/

/-- Article record, from `types/index.ts` (`interface Article`). -/
structure Article where
  id : Nat
  title : String
  content : String
  summary : Option String
  url : String
  published_date : String
  author : Option String
  src : Option String
  category : Option String
  image_url : Option String
  tags : List String
  created_at : String
  updated_at : String
deriving Repr, DecidableEq

/-- Search request body, from `types/index.ts` (`interface SearchRequest`). -/
structure SearchRequest where
  query : String
  limit : Nat
  offset : Nat
deriving Repr, DecidableEq

/-- Search response body, from `types/index.ts` (`interface SearchResponse`). -/
structure SearchResponse where
  results : List Article
  total : Nat
  query : String
  took_ms : Nat
deriving Repr, DecidableEq

/-- RAG request body, from `types/index.ts` (`interface RAGRequest`). -/
structure RAGRequest where
  question : String
  max_articles : Nat
  include_sources : Bool
deriving Repr, DecidableEq

/-- RAG response body, from `types/index.ts` (`interface RAGResponse`).
Confidence is a rational stand-in for the JS number. -/
structure RAGResponse where
  answer : String
  sources : List Article
  confidence : ℚ
  took_ms : Nat
deriving Repr, DecidableEq

/-- Search store state, from `types/index.ts` (`interface SearchState`). -/
structure SearchState where
  query : String
  results : List Article
  loading : Bool
  error : Option String
  hasMore : Bool
  total : Nat
deriving Repr, DecidableEq

/-- RAG store state, from `types/index.ts` (`interface RAGState`). -/
structure RAGState where
  question : String
  answer : Option String
  sources : List Article
  loading : Bool
  error : Option String
  confidence : ℚ
deriving Repr, DecidableEq

/-- Message resolution `isApiError(error) ? error.message : fallback` from
`store/index.ts` lines 60, 93, 169. -/
def resolveApiErrorMessage (e : Option String) (fallback : String) : String :=
  e.getD fallback

namespace SearchStore

/-- Initial search store state, `store/index.ts` lines 20-25. -/
def initialState : SearchState :=
  { query := "", results := [], loading := false, error := none,
    hasMore := true, total := 0 }

/-- Action `setQuery`, `store/index.ts` lines 28-30. -/
def setQuery (q : String) (s : SearchState) : SearchState :=
  { s with query := q }

/-- Action `setResults`, `store/index.ts` lines 32-34. -/
def setResults (rs : List Article) (s : SearchState) : SearchState :=
  { s with results := rs }

/-- Fallback error message of `keywordSearch`, `store/index.ts` line 60. -/
def keywordSearchFallback : String := "검색 중 오류가 발생했습니다."

/-- Fallback error message of `semanticSearch`, `store/index.ts` line 93. -/
def semanticSearchFallback : String := "시맨틱 검색 중 오류가 발생했습니다."

/-- Request issued by `keywordSearch`, `store/index.ts` lines 47-51. -/
def keywordSearchRequest (q : String) (offset : Nat) : SearchRequest :=
  { query := q, limit := 20, offset := offset }

/-- Request issued by `semanticSearch`, `store/index.ts` lines 80-84. -/
def semanticSearchRequest (q : String) (offset : Nat) : SearchRequest :=
  { query := q, limit := 20, offset := offset }

/-- Issue-time `set` of both search actions, `store/index.ts` lines 39-44 /
72-77.  `currentResults` is the value captured before the `set`
(`offset > 0 ? get().results : []`). -/
def searchIssue (q : String) (offset : Nat) (currentResults : List Article)
    (s : SearchState) : SearchState :=
  { s with
    loading := true,
    error := none,
    query := q,
    results := if offset = 0 then [] else currentResults }

/-- Success-settlement `set` of both search actions, `store/index.ts`
lines 53-58 / 86-91, applied to whatever the state is when the response
settles; `currentResults` is the capture from issue time. -/
def searchSettleOk (offset : Nat) (currentResults : List Article)
    (response : SearchResponse) (s : SearchState) : SearchState :=
  { s with
    results := if offset = 0 then response.results
               else currentResults ++ response.results,
    total := response.total,
    hasMore := decide (offset + response.results.length < response.total),
    loading := false }

/-- Failure-settlement `set` of both search actions, `store/index.ts`
lines 59-66 / 92-99, with the kind-specific fallback passed in. -/
def searchSettleErr (fallback : String) (e : Option String)
    (s : SearchState) : SearchState :=
  { s with
    error := some (resolveApiErrorMessage e fallback),
    loading := false,
    hasMore := false }

/-- Action `keywordSearch`, `store/index.ts` lines 36-67, as a whole
call: capture, issue, await outcome, settle. -/
def keywordSearch (q : String) (offset : Nat)
    (outcome : Except (Option String) SearchResponse)
    (s : SearchState) : SearchState :=
  let currentResults := if offset > 0 then s.results else []
  let issued := searchIssue q offset currentResults s
  match outcome with
  | Except.ok response => searchSettleOk offset currentResults response issued
  | Except.error e => searchSettleErr keywordSearchFallback e issued

/-- Action `semanticSearch`, `store/index.ts` lines 69-100, as a whole
call: capture, issue, await outcome, settle. -/
def semanticSearch (q : String) (offset : Nat)
    (outcome : Except (Option String) SearchResponse)
    (s : SearchState) : SearchState :=
  let currentResults := if offset > 0 then s.results else []
  let issued := searchIssue q offset currentResults s
  match outcome with
  | Except.ok response => searchSettleOk offset currentResults response issued
  | Except.error e => searchSettleErr semanticSearchFallback e issued

/-- Action `clearResults`, `store/index.ts` lines 102-109. -/
def clearResults (s : SearchState) : SearchState :=
  { s with results := [], total := 0, hasMore := true, error := none }

/-- Action `clearError`, `store/index.ts` lines 111-113. -/
def clearError (s : SearchState) : SearchState :=
  { s with error := none }

/-- Single-operation step of the search store: each action's `set`, with the
two async searches contributing their issue-time `set` and either
settlement `set` as separate steps (so interleaved in-flight calls are
covered). -/
inductive Step : SearchState → SearchState → Prop
  | setQuery (q : String) (s : SearchState) : Step s (setQuery q s)
  | setResults (rs : List Article) (s : SearchState) : Step s (setResults rs s)
  | issue (q : String) (offset : Nat) (cur : List Article) (s : SearchState) :
      Step s (searchIssue q offset cur s)
  | settleOk (offset : Nat) (cur : List Article) (r : SearchResponse)
      (s : SearchState) : Step s (searchSettleOk offset cur r s)
  | settleErr (fb : String) (e : Option String) (s : SearchState) :
      Step s (searchSettleErr fb e s)
  | clearResults (s : SearchState) : Step s (clearResults s)
  | clearError (s : SearchState) : Step s (clearError s)

/-- States of the search store reachable from the initial state by its
operations. -/
inductive Reachable : SearchState → Prop
  | init : Reachable initialState
  | step {s t : SearchState} : Reachable s → Step s t → Reachable t

end SearchStore

namespace RAGStore

/-- Initial RAG store state, `store/index.ts` lines 133-138. -/
def initialState : RAGState :=
  { question := "", answer := none, sources := [], loading := false,
    error := none, confidence := 0 }

/-- Action `setQuestion`, `store/index.ts` lines 141-143. -/
def setQuestion (q : String) (s : RAGState) : RAGState :=
  { s with question := q }

/-- Fallback error message of `askQuestion`, `store/index.ts` line 169. -/
def askQuestionFallback : String := "AI 답변 생성 중 오류가 발생했습니다."

/-- Network calls to the ask API issued by one `askQuestion(question,
maxArticles)` call, `store/index.ts` lines 156-160: the request is built and
sent unconditionally, with no guard on the question text. -/
def askQuestionRequests (question : String) (maxArticles : Nat) :
    List RAGRequest :=
  [{ question := question, max_articles := maxArticles,
     include_sources := true }]

/-- Issue-time `set` of `askQuestion`, `store/index.ts` lines 146-153. -/
def askIssue (question : String) (s : RAGState) : RAGState :=
  { s with
    loading := true,
    error := none,
    question := question,
    answer := none,
    sources := [],
    confidence := 0 }

/-- Action `askQuestion`, `store/index.ts` lines 145-175, as a whole call:
issue, await outcome, settle (lines 162-167 on success, 168-174 on
failure). -/
def askQuestion (question : String) (maxArticles : Nat)
    (outcome : Except (Option String) RAGResponse)
    (s : RAGState) : RAGState :=
  let issued := askIssue question s
  match outcome with
  | Except.ok response =>
      { issued with
        answer := some response.answer,
        sources := response.sources,
        confidence := response.confidence,
        loading := false }
  | Except.error e =>
      { issued with
        error := some (resolveApiErrorMessage e askQuestionFallback),
        loading := false }

/-- Action `clearAnswer`, `store/index.ts` lines 177-184. -/
def clearAnswer (s : RAGState) : RAGState :=
  { s with answer := none, sources := [], confidence := 0, error := none }

/-- Action `clearError` of the RAG store, `store/index.ts` lines 186-188. -/
def clearError (s : RAGState) : RAGState :=
  { s with error := none }

end RAGStore

/-- Sample article used as concrete input in witnesses and counterexamples. -/
def sampleArticle (i : Nat) : Article :=
  { id := i, title := "t", content := "c", summary := none, url := "u",
    published_date := "d", author := none, src := none, category := none,
    image_url := none, tags := [], created_at := "a", updated_at := "a" }

open SearchStore RAGStore

/-- C1: for every search call (keyword or semantic) with query q and offset n
that succeeds with response r: if n = 0 the final results are exactly
r.results; if n > 0 they are the pre-call results followed by r.results;
total is set to r.total, hasMore to (n + r.results.length < r.total), and
loading to false. -/
theorem C1_search_success_append (s : SearchState) (q : String) (n : Nat)
    (r : SearchResponse) :
    ((n = 0 → (keywordSearch q n (Except.ok r) s).results = r.results) ∧
     (0 < n → (keywordSearch q n (Except.ok r) s).results
        = s.results ++ r.results) ∧
     (keywordSearch q n (Except.ok r) s).total = r.total ∧
     (keywordSearch q n (Except.ok r) s).hasMore
        = decide (n + r.results.length < r.total) ∧
     (keywordSearch q n (Except.ok r) s).loading = false) ∧
    ((n = 0 → (semanticSearch q n (Except.ok r) s).results = r.results) ∧
     (0 < n → (semanticSearch q n (Except.ok r) s).results
        = s.results ++ r.results) ∧
     (semanticSearch q n (Except.ok r) s).total = r.total ∧
     (semanticSearch q n (Except.ok r) s).hasMore
        = decide (n + r.results.length < r.total) ∧
     (semanticSearch q n (Except.ok r) s).loading = false) := by
  rcases Nat.eq_zero_or_pos n with h0 | hpos
  · subst h0
    simp [keywordSearch, semanticSearch, searchIssue, searchSettleOk]
  · have hne : n ≠ 0 := Nat.pos_iff_ne_zero.mp hpos
    simp [keywordSearch, semanticSearch, searchIssue, searchSettleOk, hne,
      hpos, Nat.not_eq_zero_of_lt hpos]

/-- Witness for C1 at a concrete state, query, offsets 0 and 1, and response. -/
theorem C1_search_success_append_witness :
    (keywordSearch "ai" 0
        (Except.ok ⟨[sampleArticle 1], 2, "ai", 3⟩)
        SearchStore.initialState).results = [sampleArticle 1] ∧
    (keywordSearch "ai" 1
        (Except.ok ⟨[sampleArticle 2], 2, "ai", 3⟩)
        { SearchStore.initialState with results := [sampleArticle 1] }).results
      = [sampleArticle 1] ++ [sampleArticle 2] :=
  ⟨(C1_search_success_append SearchStore.initialState "ai" 0
      ⟨[sampleArticle 1], 2, "ai", 3⟩).1.1 rfl,
   (C1_search_success_append { SearchStore.initialState with results := [sampleArticle 1] }
      "ai" 1 ⟨[sampleArticle 2], 2, "ai", 3⟩).1.2.1 (by decide)⟩

/-- C2: for every search call (keyword or semantic) that fails, the final
state has error set to the failure's message if it carries one and otherwise
to the kind-specific fallback string, loading set to false and hasMore set to
false, for every prior state; and the two kinds' fallback strings differ. -/
theorem C2_search_failure (s : SearchState) (q : String) (n : Nat)
    (e : Option String) :
    ((keywordSearch q n (Except.error e) s).error
        = some (e.getD keywordSearchFallback) ∧
     (keywordSearch q n (Except.error e) s).loading = false ∧
     (keywordSearch q n (Except.error e) s).hasMore = false) ∧
    ((semanticSearch q n (Except.error e) s).error
        = some (e.getD semanticSearchFallback) ∧
     (semanticSearch q n (Except.error e) s).loading = false ∧
     (semanticSearch q n (Except.error e) s).hasMore = false) ∧
    keywordSearchFallback ≠ semanticSearchFallback := by
  refine ⟨⟨rfl, rfl, rfl⟩, ⟨rfl, rfl, rfl⟩, ?_⟩
  decide

/-- C5: for every askQuestion call that fails, the final state has error set
to the failure's message or the fixed fallback, loading false, and answer,
sources and confidence at their reset values. -/
theorem C5_ask_failure (s : RAGState) (q : String) (n : Nat)
    (e : Option String) :
    (askQuestion q n (Except.error e) s).error
        = some (e.getD askQuestionFallback) ∧
    (askQuestion q n (Except.error e) s).loading = false ∧
    (askQuestion q n (Except.error e) s).answer = none ∧
    (askQuestion q n (Except.error e) s).sources = [] ∧
    (askQuestion q n (Except.error e) s).confidence = 0 :=
  ⟨rfl, rfl, rfl, rfl, rfl⟩

/-- C7: clearResults empties the results, sets total to 0, hasMore to true,
clears the error, leaves query unchanged, and is idempotent. -/
theorem C7_clearResults_reset_idempotent (s : SearchState) :
    (clearResults s).results = [] ∧
    (clearResults s).total = 0 ∧
    (clearResults s).hasMore = true ∧
    (clearResults s).error = none ∧
    (clearResults s).query = s.query ∧
    clearResults (clearResults s) = clearResults s :=
  ⟨rfl, rfl, rfl, rfl, rfl, rfl⟩

/-- C9: a failed search at offset 0 is not atomic: the final state's results
are empty (cleared at issue time) while total keeps its pre-call value, for
both search kinds. -/
theorem C9_failed_search_not_atomic (s : SearchState) (q : String)
    (e : Option String) :
    ((keywordSearch q 0 (Except.error e) s).results = [] ∧
     (keywordSearch q 0 (Except.error e) s).total = s.total) ∧
    ((semanticSearch q 0 (Except.error e) s).results = [] ∧
     (semanticSearch q 0 (Except.error e) s).total = s.total) :=
  ⟨⟨rfl, rfl⟩, ⟨rfl, rfl⟩⟩

/-- C10: askQuestion overwrites the stored question with its argument at
issue time, so in every final state (success or failure) question equals the
argument, independent of any prior setQuestion call. -/
theorem C10_ask_overwrites_question (s : RAGState) (p q : String) (n : Nat)
    (outcome : Except (Option String) RAGResponse) :
    (askQuestion q n outcome s).question = q ∧
    (askQuestion q n outcome (RAGStore.setQuestion p s)).question = q := by
  cases outcome with
  | ok r => exact ⟨rfl, rfl⟩
  | error e => exact ⟨rfl, rfl⟩

/-- C8: semanticSearch performs exactly the same state transition as
keywordSearch on the same outcome: identical final states on success and on
failures that carry a message; on a message-less failure the states differ
only in the error field, which holds the semantic fallback instead; and the
two requests built for the endpoints are equal. -/
theorem C8_semantic_matches_keyword (s : SearchState) (q : String) (n : Nat) :
    (∀ r : SearchResponse,
        semanticSearch q n (Except.ok r) s
          = keywordSearch q n (Except.ok r) s) ∧
    (∀ m : String,
        semanticSearch q n (Except.error (some m)) s
          = keywordSearch q n (Except.error (some m)) s) ∧
    semanticSearch q n (Except.error none) s
      = { keywordSearch q n (Except.error none) s with
          error := some semanticSearchFallback } ∧
    semanticSearchRequest q n = keywordSearchRequest q n :=
  ⟨fun _ => rfl, fun _ => rfl, rfl, rfl⟩

/-- C4 counterexample: askQuestion with blank question text does issue a
network call to the ask API — the request list of the call with empty
question is not empty, refuting the claimed local rejection. -/
theorem C4_counterexample : RAGStore.askQuestionRequests "" 5 ≠ [] := by
  simp [RAGStore.askQuestionRequests]

/-- C4 amended: askQuestion performs no local blank-input rejection: every
call, blank question text included, issues exactly one network call to the
ask API carrying the question text verbatim; preventing blank input is left
to the caller. -/
theorem C4_amended_no_local_rejection (q : String) (n : Nat) :
    RAGStore.askQuestionRequests q n
      = [{ question := q, max_articles := n, include_sources := true }] :=
  rfl

/-- C3 counterexample: after applying a well-formed page-1 response (1
result, total 2) at offset 0 and then a well-formed page-2 response (1
result, total 2) at offset 1, the state has offset + results.length = 3 >
2 = total, refuting the claimed invariant. -/
theorem C3_counterexample :
    ¬ (1 + (keywordSearch "q" 1
          (Except.ok ⟨[sampleArticle 2], 2, "q", 0⟩)
          (keywordSearch "q" 0
            (Except.ok ⟨[sampleArticle 1], 2, "q", 0⟩)
            SearchStore.initialState)).results.length
        ≤ (keywordSearch "q" 1
          (Except.ok ⟨[sampleArticle 2], 2, "q", 0⟩)
          (keywordSearch "q" 0
            (Except.ok ⟨[sampleArticle 1], 2, "q", 0⟩)
            SearchStore.initialState)).total) := by
  decide

/-- C3 amended: after a search response r is applied at offset n (keyword or
semantic), provided the response is well-formed (n + r.results.length ≤
r.total) and, when n > 0, the pre-call results have length exactly n, the
state satisfies results.length ≤ total (the response's page, placed at
offset n, fits under total; the claim's extra offset term double-counted the
first n results). -/
theorem C3_amended_results_bounded (s : SearchState) (q : String) (n : Nat)
    (r : SearchResponse)
    (hwf : n + r.results.length ≤ r.total)
    (hpag : 0 < n → s.results.length = n) :
    (keywordSearch q n (Except.ok r) s).results.length
      ≤ (keywordSearch q n (Except.ok r) s).total ∧
    (semanticSearch q n (Except.ok r) s).results.length
      ≤ (semanticSearch q n (Except.ok r) s).total := by
  rcases Nat.eq_zero_or_pos n with h0 | hpos
  · subst h0
    constructor <;>
      simpa [keywordSearch, semanticSearch, searchIssue, searchSettleOk]
        using hwf
  · have hne : n ≠ 0 := Nat.pos_iff_ne_zero.mp hpos
    have hlen := hpag hpos
    constructor <;>
      · simp [keywordSearch, semanticSearch, searchIssue, searchSettleOk,
          hne, hpos]
        omega

/-- Witness for C3 amended at offset 1, one prior result, and a well-formed
response. -/
theorem C3_amended_results_bounded_witness :
    (keywordSearch "q" 1 (Except.ok ⟨[sampleArticle 2], 2, "q", 7⟩)
        { SearchStore.initialState with
          results := [sampleArticle 1] }).results.length
      ≤ (keywordSearch "q" 1 (Except.ok ⟨[sampleArticle 2], 2, "q", 7⟩)
        { SearchStore.initialState with
          results := [sampleArticle 1] }).total :=
  (C3_amended_results_bounded
    { SearchStore.initialState with results := [sampleArticle 1] }
    "q" 1 ⟨[sampleArticle 2], 2, "q", 7⟩ (by decide) (fun _ => rfl)).1

/-- C6: in every state of the search store reachable by its operations,
loading and error are mutually exclusive (loading true forces error absent);
and the failure settlement, the only operation that sets an error, always
sets an error and clears loading in the same step. -/
theorem C6_loading_error_exclusive :
    (∀ s : SearchState, Reachable s → s.loading = true → s.error = none) ∧
    (∀ (fb : String) (e : Option String) (s : SearchState),
        (searchSettleErr fb e s).error.isSome = true ∧
        (searchSettleErr fb e s).loading = false) := by
  constructor
  · intro s hs
    induction hs with
    | init => simp [SearchStore.initialState]
    | step hr hstep ih =>
      cases hstep with
      | setQuery q t => exact fun h => ih h
      | setResults rs t => exact fun h => ih h
      | issue q o cur t => exact fun _ => rfl
      | settleOk o cur r t => exact fun h => absurd h (by simp [searchSettleOk])
      | settleErr fb e t => exact fun h => absurd h (by simp [searchSettleErr])
      | clearResults t => exact fun _ => rfl
      | clearError t => exact fun _ => rfl
  · exact fun fb e s => ⟨rfl, rfl⟩

/-- Witness for C6 at the state reached by issuing a search from the initial
state, and at a concrete failure settlement. -/
theorem C6_loading_error_exclusive_witness :
    (searchIssue "x" 0 [] SearchStore.initialState).error = none ∧
    (searchSettleErr keywordSearchFallback none
        SearchStore.initialState).loading = false :=
  ⟨C6_loading_error_exclusive.1
      (searchIssue "x" 0 [] SearchStore.initialState)
      (Reachable.step Reachable.init
        (Step.issue "x" 0 [] SearchStore.initialState)) rfl,
   (C6_loading_error_exclusive.2 keywordSearchFallback none
      SearchStore.initialState).2⟩
